import Mathlib

/-!
Shallow embedding of `src/lib/vrl/stdlib/src/to_unix_timestamp.rs` (the
`to_unix_timestamp` builtin of the VRL expression language) together with the
minimal surrounding plumbing it uses: value kinds, type descriptors, the
argument list consumed by `compile`, and the chrono timestamp accessors called
by `resolve`.

Conventions:
- Rust machine integers are modelled as `Int`; where the original i64
  arithmetic can overflow (chrono's `timestamp_nanos`), the release-build
  two's-complement wraparound is made explicit via `wrapI64`.
- Fallible Rust code returns `Except`.
- A chrono `DateTime<Utc>` is modelled by its exact (non-leap) nanosecond
  count since the Unix epoch, an unbounded `Int`; chrono's accessors
  `timestamp`, `timestamp_millis`, `timestamp_nanos` are translated from
  chrono 0.4's implementations.
-/

namespace VRL

/-- Decidable equality on `Except`, so that concrete evaluation outcomes can
be checked by `decide`. -/
instance instExceptDecEq {ε α : Type} [DecidableEq ε] [DecidableEq α] :
    DecidableEq (Except ε α) := fun x y =>
  match x, y with
  | Except.ok a, Except.ok b =>
    if h : a = b then isTrue (by rw [h])
    else isFalse (by intro hc; cases hc; exact h rfl)
  | Except.ok _, Except.error _ => isFalse (by intro hc; cases hc)
  | Except.error _, Except.ok _ => isFalse (by intro hc; cases hc)
  | Except.error e, Except.error f =>
    if h : e = f then isTrue (by rw [h])
    else isFalse (by intro hc; cases hc; exact h rfl)

/-- Modelled from the spec: the vrl compiler's `value::Kind` bitflag set
(library not under `src/`): the set of value kinds an expression may produce.
One flag per kind, as in the vrl compiler. -/
structure Kind where
  bytes : Bool
  integer : Bool
  float : Bool
  boolean : Bool
  object : Bool
  array : Bool
  timestamp : Bool
  regex : Bool
  null : Bool
deriving DecidableEq

/-- Kind with no flags set. -/
def Kind.empty : Kind :=
  ⟨false, false, false, false, false, false, false, false, false⟩

/-- Singleton kind: bytes (VRL strings). -/
def Kind.Bytes : Kind := { Kind.empty with bytes := true }

/-- Singleton kind: integer. -/
def Kind.Integer : Kind := { Kind.empty with integer := true }

/-- Singleton kind: boolean. -/
def Kind.Boolean : Kind := { Kind.empty with boolean := true }

/-- Singleton kind: array. -/
def Kind.Array : Kind := { Kind.empty with array := true }

/-- Singleton kind: timestamp. -/
def Kind.Timestamp : Kind := { Kind.empty with timestamp := true }

/-- Singleton kind: null. -/
def Kind.Null : Kind := { Kind.empty with null := true }

/-- Modelled from the spec: bitflags `contains`: every flag set in `other` is
also set in `k` (i.e. `other ⊆ k` as kind sets). -/
def Kind.contains (k other : Kind) : Bool :=
  (!other.bytes || k.bytes) &&
  (!other.integer || k.integer) &&
  (!other.float || k.float) &&
  (!other.boolean || k.boolean) &&
  (!other.object || k.object) &&
  (!other.array || k.array) &&
  (!other.timestamp || k.timestamp) &&
  (!other.regex || k.regex) &&
  (!other.null || k.null)

/-- Modelled from the spec: the vrl compiler's `TypeDef` (library not under
`src/`): the static type descriptor of an expression — the kind set it may
produce and whether its evaluation may fail. -/
structure TypeDef where
  fallible : Bool
  kind : Kind
deriving DecidableEq

/-- Modelled from the spec: vrl `TypeDef::fallible_unless(kind)` (library not
under `src/`): mark the descriptor fallible unless `k` contains the
descriptor's kind set; an already-fallible descriptor stays fallible. -/
def TypeDef.fallible_unless (td : TypeDef) (k : Kind) : TypeDef :=
  if k.contains td.kind then td else { td with fallible := true }

/-- Modelled from the spec: vrl `TypeDef::with_constraint(kind)` (library not
under `src/`): replace the descriptor's kind set, keeping fallibility. -/
def TypeDef.with_constraint (td : TypeDef) (k : Kind) : TypeDef :=
  { td with kind := k }

/-- Model of chrono `DateTime<Utc>`: the exact (non-leap) count of
nanoseconds since the Unix epoch 1970-01-01T00:00:00Z. -/
structure Timestamp where
  nanos : Int
deriving DecidableEq

/-- Chrono `DateTime::timestamp`: whole non-leap seconds since the epoch.
Chrono computes `days_from_epoch * 86400 + seconds_from_midnight`, where
`seconds_from_midnight ∈ [0, 86400)`, so the exact seconds value is rounded
toward negative infinity (floor); sub-second nanoseconds are not included.
With the exact-nanosecond model this is Euclidean division by 10^9 (equal to
floor division for a positive divisor). -/
def Timestamp.timestamp (ts : Timestamp) : Int :=
  ts.nanos / 1000000000

/-- Chrono `DateTime::timestamp_subsec_nanos`: the sub-second part, in
nanoseconds, always in `[0, 10^9)`. -/
def Timestamp.timestamp_subsec_nanos (ts : Timestamp) : Int :=
  ts.nanos % 1000000000

/-- Chrono `DateTime::timestamp_subsec_millis`: the sub-second part in whole
milliseconds, `timestamp_subsec_nanos / 1_000_000`. -/
def Timestamp.timestamp_subsec_millis (ts : Timestamp) : Int :=
  ts.timestamp_subsec_nanos / 1000000

/-- Chrono `DateTime::timestamp_millis`:
`timestamp() * 1000 + timestamp_subsec_millis()`. For every chrono
representable instant (years ±262143) this i64 arithmetic cannot overflow, so
no wraparound is modelled here. -/
def Timestamp.timestamp_millis (ts : Timestamp) : Int :=
  ts.timestamp * 1000 + ts.timestamp_subsec_millis

/-- Two's-complement wraparound of a signed 64-bit integer: the
representative of `x` modulo 2^64 lying in `[-2^63, 2^63)`. This is the
release-build behavior of overflowing Rust i64 arithmetic (debug builds
panic instead). -/
def wrapI64 (x : Int) : Int :=
  (x + 9223372036854775808) % 18446744073709551616 - 9223372036854775808

/-- Chrono `DateTime::timestamp_nanos` (chrono 0.4):
`timestamp() * 1_000_000_000 + timestamp_subsec_nanos()`, computed in i64
arithmetic. For instants outside the i64 nanosecond range
(`[-2^63, 2^63)` nanoseconds, roughly years 1677–2262) the multiplication
overflows and the release-build result wraps modulo 2^64. Since
`timestamp()` itself always fits in i64, the composite equals the
wraparound of the exact nanosecond count. -/
def Timestamp.timestamp_nanos (ts : Timestamp) : Int :=
  wrapI64 ts.nanos

/-- Static classification of a runtime value, used in coercion errors. -/
inductive ValueKind where
  | bytes
  | integer
  | boolean
  | timestamp
  | null
deriving DecidableEq

/-- Singleton `Kind` corresponding to a `ValueKind`. -/
def ValueKind.to_kind : ValueKind → Kind
  | .bytes => Kind.Bytes
  | .integer => Kind.Integer
  | .boolean => Kind.Boolean
  | .timestamp => Kind.Timestamp
  | .null => Kind.Null

/-- Modelled from the spec: vrl runtime `Value` (library not under `src/`),
restricted to the variants this builtin's contract mentions (float, object,
array and regex values are irrelevant to every claim and omitted). -/
inductive Value where
  | bytes (s : String)
  | integer (i : Int)
  | boolean (b : Bool)
  | timestamp (ts : Timestamp)
  | null
deriving DecidableEq

/-- Kind of a runtime value. -/
def Value.kind : Value → ValueKind
  | .bytes _ => .bytes
  | .integer _ => .integer
  | .boolean _ => .boolean
  | .timestamp _ => .timestamp
  | .null => .null

/-- Modelled from the spec: a typed runtime failure of the expression
language — either a kind-coercion error (`value::Error::Expected(want, got)`)
or an arbitrary failure raised by a sub-expression. -/
inductive RuntimeError where
  | expected (want got : ValueKind)
  | custom (msg : String)
deriving DecidableEq

/-- Modelled from the spec: vrl `Value::try_timestamp` (library not under
`src/`): return the underlying timestamp, or a kind-coercion error naming
the offending kind. -/
def Value.try_timestamp : Value → Except RuntimeError Timestamp
  | .timestamp ts => Except.ok ts
  | v => Except.error (RuntimeError.expected ValueKind.timestamp v.kind)

/-- Modelled from the spec: the opaque runtime evaluation context from which
operand sub-expressions read their inputs (the current event record). -/
structure Context where
  target : Value

/-- Modelled from the spec: the opaque compiler type-state — ambient static
knowledge about sub-expression types, read-only for this component. -/
structure CompilerState where
  locals : List (String × TypeDef)

/-- Modelled from the spec: the `Expression` interface of a Runtime Node —
`resolve` evaluates against a context to a value or a typed failure, and
`type_def` derives the node's static type descriptor from the compiler
state. -/
structure Expression where
  resolve : Context → Except RuntimeError Value
  type_def : CompilerState → TypeDef

/-- The `Unit` enum of `to_unix_timestamp.rs`. -/
inductive Unit where
  | Seconds
  | Milliseconds
  | Nanoseconds
deriving DecidableEq

/-- `Unit::as_str`: canonical lowercase identifier of a variant. -/
def Unit.as_str : Unit → String
  | .Seconds => "seconds"
  | .Milliseconds => "milliseconds"
  | .Nanoseconds => "nanoseconds"

/-- `Unit::all_str`: the canonical identifiers of all variants, in
declaration order. -/
def Unit.all_str : List String :=
  [Unit.Seconds, Unit.Milliseconds, Unit.Nanoseconds].map Unit.as_str

/-- `Default for Unit`: `Unit::Seconds`. -/
def Unit.default : Unit := Unit.Seconds

/-- `FromStr for Unit`: match on the three canonical strings, any other
string yields the error `"unit not recognized"`. (Rust string `match`
translated to an equality chain.) -/
def Unit.from_str (s : String) : Except String Unit :=
  if s = "seconds" then Except.ok Unit.Seconds
  else if s = "milliseconds" then Except.ok Unit.Milliseconds
  else if s = "nanoseconds" then Except.ok Unit.Nanoseconds
  else Except.error "unit not recognized"

/-- Modelled from the spec: one call-site argument — either an arbitrary
sub-expression or a literal string (the form the enum-constrained `unit`
parameter requires). -/
inductive Argument where
  | expr (e : Expression)
  | str (s : String)

/-- View of an argument as an expression: a literal string argument is the
corresponding bytes-literal expression (infallible, kind bytes). -/
def Argument.to_expr : Argument → Expression
  | .expr e => e
  | .str s =>
    { resolve := fun _ => Except.ok (Value.bytes s)
      type_def := fun _ => { fallible := false, kind := Kind.Bytes } }

/-- Modelled from the spec: the compile-time argument list — call-site
argument expressions keyed by parameter keyword. -/
abbrev ArgumentList := List (String × Argument)

/-- Modelled from the spec: a compile-time error of the builtin's `compile`
operation: missing required argument, enum-constrained argument outside the
allowed set, enum-constrained argument that is not a literal string, or a
Rust panic (`expect`) reached during compilation. -/
inductive CompileError where
  | missingRequired (keyword : String)
  | invalidEnumVariant (keyword got : String) (variants : List String)
  | nonLiteralEnum (keyword : String)
  | panicked (msg : String)
deriving DecidableEq

/-- Modelled from the spec: `ArgumentList::required(keyword)`: the required
sub-expression for `keyword`; per the contract the extraction succeeds or
propagates a compile error when the argument is absent. -/
def ArgumentList.required (args : ArgumentList) (keyword : String) :
    Except CompileError Expression :=
  match List.lookup keyword args with
  | some a => Except.ok a.to_expr
  | none => Except.error (CompileError.missingRequired keyword)

/-- Modelled from the spec: `ArgumentList::optional_enum(keyword, variants)`:
absent argument yields `none`; a literal string inside `variants` yields it;
a literal string outside `variants` is an invalid-enum-value error naming
the allowed set; a non-literal argument cannot be enum-checked. -/
def ArgumentList.optional_enum (args : ArgumentList) (keyword : String)
    (variants : List String) : Except CompileError (Option String) :=
  match List.lookup keyword args with
  | none => Except.ok none
  | some (Argument.str s) =>
    if s ∈ variants then Except.ok (some s)
    else Except.error (CompileError.invalidEnumVariant keyword s variants)
  | some (Argument.expr _) => Except.error (CompileError.nonLiteralEnum keyword)

/-- The `ToUnixTimestampFn` Runtime Node: the owned `value` operand and the
selected `unit`. -/
structure ToUnixTimestampFn where
  value : Expression
  unit : Unit

/-- `ToUnixTimestampFn::resolve`:
`self.value.resolve(ctx)?.try_timestamp()?`, then the chrono accessor
selected by `self.unit`, returned as an integer value. -/
def ToUnixTimestampFn.resolve (f : ToUnixTimestampFn) (ctx : Context) :
    Except RuntimeError Value :=
  match f.value.resolve ctx with
  | Except.error e => Except.error e
  | Except.ok v =>
    match v.try_timestamp with
    | Except.error e => Except.error e
    | Except.ok ts =>
      Except.ok (Value.integer (match f.unit with
        | Unit.Seconds => ts.timestamp
        | Unit.Milliseconds => ts.timestamp_millis
        | Unit.Nanoseconds => ts.timestamp_nanos))

/-- `ToUnixTimestampFn::type_def`:
`self.value.type_def(state).fallible_unless(Kind::Timestamp).with_constraint(Kind::Integer)`. -/
def ToUnixTimestampFn.type_def (f : ToUnixTimestampFn) (state : CompilerState) :
    TypeDef :=
  ((f.value.type_def state).fallible_unless Kind.Timestamp).with_constraint
    Kind.Integer

/-- `Parameter` declaration metadata of the builtin descriptor. -/
structure Parameter where
  keyword : String
  kind : Kind
  required : Bool

namespace ToUnixTimestamp

/-- `Function::identifier` for `ToUnixTimestamp`. -/
def identifier : String := "to_unix_timestamp"

/-- `Function::parameters` for `ToUnixTimestamp`: required timestamp-kind
`value`, optional `unit` (declared with kind ARRAY, the vrl encoding of an
enum-of-strings parameter). -/
def parameters : List Parameter :=
  [ { keyword := "value", kind := Kind.Timestamp, required := true },
    { keyword := "unit", kind := Kind.Array, required := false } ]

/-- `Function::compile` for `ToUnixTimestamp`:
`arguments.required("value")`, then
`arguments.optional_enum("unit", &Unit::all_str())?`, mapping a present
string through `Unit::from_str(..).expect("validated enum")` (the `expect`
is modelled as the `panicked` compile error) and defaulting an absent one
with `unwrap_or_default()`; finally the Runtime Node is built. -/
def compile (arguments : ArgumentList) :
    Except CompileError ToUnixTimestampFn :=
  match ArgumentList.required arguments "value" with
  | Except.error e => Except.error e
  | Except.ok value =>
    match ArgumentList.optional_enum arguments "unit" Unit.all_str with
    | Except.error e => Except.error e
    | Except.ok none => Except.ok { value := value, unit := Unit.default }
    | Except.ok (some s) =>
      match Unit.from_str s with
      | Except.ok u => Except.ok { value := value, unit := u }
      | Except.error _ => Except.error (CompileError.panicked "validated enum")

end ToUnixTimestamp

/-! Concrete helpers used by witnesses and counterexamples. -/

/-- Literal expression producing a fixed value, with the matching infallible
singleton-kind descriptor (the vrl `Literal` node). -/
def literal (v : Value) : Expression :=
  { resolve := fun _ => Except.ok v
    type_def := fun _ => { fallible := false, kind := v.kind.to_kind } }

/-- Operand that always fails with a fixed runtime error. -/
def failingOperand (e : RuntimeError) : Expression :=
  { resolve := fun _ => Except.error e
    type_def := fun _ => { fallible := true, kind := Kind.Bytes } }

/-- Runtime node whose operand is a timestamp literal. -/
def timestampNode (ts : Timestamp) (u : Unit) : ToUnixTimestampFn :=
  { value := literal (Value.timestamp ts), unit := u }

/-- A concrete evaluation context. -/
def defaultContext : Context := { target := Value.null }

/-- A concrete compiler state. -/
def defaultState : CompilerState := { locals := [] }

/-- An operand's descriptor statically guarantees a timestamp when it is
infallible and its kind set is contained in the timestamp kind. -/
def staticallyTimestamp (td : TypeDef) : Prop :=
  td.fallible = false ∧ Kind.Timestamp.contains td.kind = true

/-- Truncation of an exact nanosecond count to whole seconds toward the
epoch, as the spec words it: the sub-second part is dropped toward zero
distance from 1970-01-01T00:00:00Z, i.e. rounding toward zero. Stated with
Euclidean division of the absolute value so that it matches the spec's
words rather than the code. -/
def specTruncationTowardEpoch (n : Int) : Int :=
  if 0 ≤ n then n / 1000000000 else -((-n) / 1000000000)

/-! Helper lemmas shared by several claims. -/

/-- The canonical unit identifiers, evaluated. -/
theorem unit_all_str_eval :
    Unit.all_str = ["seconds", "milliseconds", "nanoseconds"] := rfl

/-- Every string in `Unit.all_str` parses successfully. -/
theorem from_str_ok_of_mem_all_str (s : String) (hs : s ∈ Unit.all_str) :
    ∃ u, Unit.from_str s = Except.ok u := by
  rw [unit_all_str_eval] at hs
  simp only [List.mem_cons, List.not_mem_nil, or_false] at hs
  rcases hs with h | h | h <;> subst h <;> exact ⟨_, rfl⟩

/-! Claim theorems. -/

/-- Claim C1: for every node and compiler state, `type_def` reports result
kind Integer, and reports fallible exactly when the operand's type
descriptor does not statically guarantee a timestamp (infallible exactly
when the operand is statically an infallible pure timestamp). -/
theorem C1_type_def_integer_and_fallibility (f : ToUnixTimestampFn)
    (state : CompilerState) :
    (f.type_def state).kind = Kind.Integer ∧
    ((f.type_def state).fallible = true ↔
      ¬ staticallyTimestamp (f.value.type_def state)) := by
  unfold ToUnixTimestampFn.type_def TypeDef.with_constraint
    TypeDef.fallible_unless staticallyTimestamp
  refine ⟨rfl, ?_⟩
  by_cases hc : Kind.Timestamp.contains (f.value.type_def state).kind = true
  · cases hf : (f.value.type_def state).fallible <;> simp [hc, hf]
  · simp [hc]

/-- Claim C2: with the required value argument present, compile rejects a
unit string outside the three canonical identifiers with an
invalid-enum-value error naming the allowed set, and compiles an absent
unit to a node whose unit is Seconds. -/
theorem C2_unit_enum_validation (args : ArgumentList) (a : Argument)
    (hv : List.lookup "value" args = some a) :
    (∀ s, List.lookup "unit" args = some (Argument.str s) →
      s ∉ Unit.all_str →
      ToUnixTimestamp.compile args =
        Except.error (CompileError.invalidEnumVariant "unit" s
          ["seconds", "milliseconds", "nanoseconds"])) ∧
    (List.lookup "unit" args = none →
      ∃ fn, ToUnixTimestamp.compile args = Except.ok fn ∧
        fn.unit = Unit.Seconds) := by
  constructor
  · intro s hu hs
    rw [unit_all_str_eval] at hs
    simp only [List.mem_cons, List.not_mem_nil, or_false] at hs
    simp [ToUnixTimestamp.compile, ArgumentList.required,
      ArgumentList.optional_enum, hv, hu, hs, unit_all_str_eval]
  · intro hu
    refine ⟨{ value := a.to_expr, unit := Unit.default }, ?_, rfl⟩
    simp [ToUnixTimestamp.compile, ArgumentList.required,
      ArgumentList.optional_enum, hv, hu]

/-- Witness for C2: `unit: "hours"` is rejected naming the allowed set, and
omitting `unit` compiles to a Seconds node. -/
theorem C2_unit_enum_validation_witness :
    ToUnixTimestamp.compile
        [("value", Argument.str "x"), ("unit", Argument.str "hours")] =
      Except.error (CompileError.invalidEnumVariant "unit" "hours"
        ["seconds", "milliseconds", "nanoseconds"]) ∧
    (∃ fn, ToUnixTimestamp.compile [("value", Argument.str "x")] =
        Except.ok fn ∧ fn.unit = Unit.Seconds) :=
  ⟨(C2_unit_enum_validation
      [("value", Argument.str "x"), ("unit", Argument.str "hours")]
      (Argument.str "x") rfl).1 "hours" rfl (by decide),
   (C2_unit_enum_validation [("value", Argument.str "x")]
      (Argument.str "x") rfl).2 rfl⟩

/-- Claim C3: resolve propagates an operand failure unchanged, rejects a
non-timestamp operand value with a type-coercion error naming the offending
kind, and in every case returns either a value or a typed failure (it is a
total function into the failure monad; no panic/abort exists in the model). -/
theorem C3_resolve_error_propagation (f : ToUnixTimestampFn) (ctx : Context) :
    (∀ e, f.value.resolve ctx = Except.error e →
      f.resolve ctx = Except.error e) ∧
    (∀ v, f.value.resolve ctx = Except.ok v →
      v.kind ≠ ValueKind.timestamp →
      f.resolve ctx =
        Except.error (RuntimeError.expected ValueKind.timestamp v.kind)) ∧
    ((∃ v, f.resolve ctx = Except.ok v) ∨
      (∃ e, f.resolve ctx = Except.error e)) := by
  refine ⟨?_, ?_, ?_⟩
  · intro e he
    simp [ToUnixTimestampFn.resolve, he]
  · intro v hv hk
    have hts : v.try_timestamp =
        Except.error (RuntimeError.expected ValueKind.timestamp v.kind) := by
      cases v <;> first
        | rfl
        | (exfalso; exact hk rfl)
    simp [ToUnixTimestampFn.resolve, hv, hts]
  · cases h : f.resolve ctx with
    | ok v => exact Or.inl ⟨v, rfl⟩
    | error e => exact Or.inr ⟨e, rfl⟩

/-- Witness for C3: a failing operand's error comes back verbatim, and a
string operand yields the timestamp-coercion error naming kind bytes. -/
theorem C3_resolve_error_propagation_witness :
    ({ value := failingOperand (RuntimeError.custom "boom"),
       unit := Unit.Seconds } : ToUnixTimestampFn).resolve defaultContext =
      Except.error (RuntimeError.custom "boom") ∧
    ({ value := literal (Value.bytes "late December"),
       unit := Unit.Seconds } : ToUnixTimestampFn).resolve defaultContext =
      Except.error (RuntimeError.expected ValueKind.timestamp
        ValueKind.bytes) :=
  ⟨(C3_resolve_error_propagation
      { value := failingOperand (RuntimeError.custom "boom")
        unit := Unit.Seconds } defaultContext).1
      (RuntimeError.custom "boom") rfl,
   (C3_resolve_error_propagation
      { value := literal (Value.bytes "late December")
        unit := Unit.Seconds } defaultContext).2.1
      (Value.bytes "late December") rfl (by decide)⟩

/-- Claim C4 (failing input): at 2500-01-01T00:00:00Z — exactly
16725225600000000000 nanoseconds since the epoch, beyond the signed 64-bit
nanosecond range — resolving with unit Nanoseconds silently wraps modulo
2^64: the result is the ordinary integer −1721518473709551616, which is not
the exact count, not either i64 range bound, and not a failure. -/
theorem C4_nanoseconds_silent_wraparound :
    (9223372036854775808 : Int) < 16725225600000000000 ∧
    (timestampNode { nanos := 16725225600000000000 }
        Unit.Nanoseconds).resolve defaultContext =
      Except.ok (Value.integer (-1721518473709551616)) ∧
    (-1721518473709551616 : Int) ≠ 16725225600000000000 ∧
    (-1721518473709551616 : Int) ≠ 9223372036854775807 ∧
    (-1721518473709551616 : Int) ≠ -9223372036854775808 := by
  refine ⟨by decide, by decide, by decide, by decide, by decide⟩

/-- Claim C5 (counterexample): at 1969-12-31T23:59:59.5Z — exact value −0.5
seconds, a pre-epoch timestamp with nonzero sub-second component — the code
returns −1, while truncation of −0.5 seconds toward the epoch is 0: the
sub-second part of a pre-epoch timestamp is floored away from the epoch,
not dropped toward it. -/
theorem C5_counterexample_pre_epoch :
    (timestampNode { nanos := -500000000 } Unit.Seconds).resolve
        defaultContext = Except.ok (Value.integer (-1)) ∧
    specTruncationTowardEpoch (-500000000) = 0 ∧
    (timestampNode { nanos := -500000000 } Unit.Seconds).resolve
        defaultContext ≠
      Except.ok (Value.integer (specTruncationTowardEpoch (-500000000))) := by
  refine ⟨by decide, by decide, by decide⟩

/-- Claim C5 (amended): for every timestamp with nonzero sub-second
component, the Seconds result is the exact seconds value rounded toward
negative infinity (floor): it is strictly between the exact value minus one
second and the exact value, it equals truncation toward the epoch for
post-epoch timestamps, and for pre-epoch timestamps it is exactly one below
the truncation toward the epoch (the sub-second part rounds away from the
epoch there, never upward). -/
theorem C5_seconds_floor (ts : Timestamp) (ctx : Context)
    (h : ts.nanos % 1000000000 ≠ 0) :
    (timestampNode ts Unit.Seconds).resolve ctx =
      Except.ok (Value.integer (ts.nanos / 1000000000)) ∧
    ts.nanos / 1000000000 * 1000000000 < ts.nanos ∧
    ts.nanos < (ts.nanos / 1000000000 + 1) * 1000000000 ∧
    (0 ≤ ts.nanos →
      ts.nanos / 1000000000 = specTruncationTowardEpoch ts.nanos) ∧
    (ts.nanos < 0 →
      ts.nanos / 1000000000 = specTruncationTowardEpoch ts.nanos - 1) := by
  refine ⟨rfl, by omega, by omega, ?_, ?_⟩
  · intro h0
    simp [specTruncationTowardEpoch, h0]
  · intro h0
    rw [specTruncationTowardEpoch, if_neg (by omega)]
    omega

/-- Witness for C5 (amended) at 1.5 seconds past the epoch. -/
theorem C5_seconds_floor_witness :
    (timestampNode { nanos := 1500000000 } Unit.Seconds).resolve
        defaultContext = Except.ok (Value.integer 1) :=
  (C5_seconds_floor { nanos := 1500000000 } defaultContext (by decide)).1

/-- Claim C6: when the required value argument is absent, compile returns
the missing-required-argument compile error: it neither succeeds nor
crashes. -/
theorem C6_missing_value_compile_error (args : ArgumentList)
    (h : List.lookup "value" args = none) :
    ToUnixTimestamp.compile args =
      Except.error (CompileError.missingRequired "value") := by
  simp [ToUnixTimestamp.compile, ArgumentList.required, h]

/-- Witness for C6 at an argument list carrying only a unit argument. -/
theorem C6_missing_value_compile_error_witness :
    ToUnixTimestamp.compile [("unit", Argument.str "seconds")] =
      Except.error (CompileError.missingRequired "value") :=
  C6_missing_value_compile_error [("unit", Argument.str "seconds")] rfl

/-- Claim C7: the documented example instants resolve exactly as specified:
2000-01-01T00:00:00Z in Seconds is 946684800; 2010-01-01T00:00:00Z in
Milliseconds is 1262304000000; 2020-01-01T00:00:00Z in Nanoseconds is
1577836800000000000; and 2021-01-01T00:00:00.000Z is 1609459200,
1609459200000 and 1609459200000000000 in Seconds, Milliseconds and
Nanoseconds respectively. -/
theorem C7_documented_examples (ctx : Context) :
    (timestampNode { nanos := 946684800000000000 } Unit.Seconds).resolve
        ctx = Except.ok (Value.integer 946684800) ∧
    (timestampNode { nanos := 1262304000000000000 }
        Unit.Milliseconds).resolve ctx =
      Except.ok (Value.integer 1262304000000) ∧
    (timestampNode { nanos := 1577836800000000000 }
        Unit.Nanoseconds).resolve ctx =
      Except.ok (Value.integer 1577836800000000000) ∧
    (timestampNode { nanos := 1609459200000000000 } Unit.Seconds).resolve
        ctx = Except.ok (Value.integer 1609459200) ∧
    (timestampNode { nanos := 1609459200000000000 }
        Unit.Milliseconds).resolve ctx =
      Except.ok (Value.integer 1609459200000) ∧
    (timestampNode { nanos := 1609459200000000000 }
        Unit.Nanoseconds).resolve ctx =
      Except.ok (Value.integer 1609459200000000000) := by
  refine ⟨rfl, rfl, rfl, rfl, rfl, rfl⟩

/-- Claim C8 (counterexample): at 2286-11-20T17:46:40Z — exactly 10^19
nanoseconds since the epoch, a nanosecond-free instant chrono can represent
— the Milliseconds result is 10^13 but the Nanoseconds result has wrapped
to −8446744073709551616, which is not 10^13 · 10^6: the ×10^6 relation
between Nanoseconds and Milliseconds fails beyond the i64 nanosecond
range. -/
theorem C8_counterexample_overflow :
    (10000000000000000000 : Int) % 1000000 = 0 ∧
    (timestampNode { nanos := 10000000000000000000 }
        Unit.Milliseconds).resolve defaultContext =
      Except.ok (Value.integer 10000000000000) ∧
    (timestampNode { nanos := 10000000000000000000 }
        Unit.Nanoseconds).resolve defaultContext =
      Except.ok (Value.integer (-8446744073709551616)) ∧
    (-8446744073709551616 : Int) ≠ 10000000000000 * 1000000 := by
  refine ⟨by decide, by decide, by decide, by decide⟩

/-- Claim C8 (amended): for every timestamp with zero sub-second component
the Milliseconds result is the Seconds result times 1000; and for every
nanosecond-free timestamp whose exact nanosecond count fits in a signed
64-bit integer, the Nanoseconds result is the Milliseconds result times
10^6 (outside that range the nanosecond conversion wraps, see the
counterexample). -/
theorem C8_unit_scaling (ts : Timestamp) (ctx : Context) :
    (timestampNode ts Unit.Seconds).resolve ctx =
      Except.ok (Value.integer ts.timestamp) ∧
    (ts.nanos % 1000000000 = 0 →
      (timestampNode ts Unit.Milliseconds).resolve ctx =
        Except.ok (Value.integer (ts.timestamp * 1000))) ∧
    (ts.nanos % 1000000 = 0 → -9223372036854775808 ≤ ts.nanos →
      ts.nanos < 9223372036854775808 →
      (timestampNode ts Unit.Nanoseconds).resolve ctx =
        Except.ok (Value.integer (ts.timestamp_millis * 1000000))) := by
  refine ⟨rfl, ?_, ?_⟩
  · intro h
    have hm : ts.timestamp_millis = ts.timestamp * 1000 := by
      unfold Timestamp.timestamp_millis Timestamp.timestamp_subsec_millis
        Timestamp.timestamp_subsec_nanos Timestamp.timestamp
      omega
    show Except.ok (Value.integer ts.timestamp_millis) =
      Except.ok (Value.integer (ts.timestamp * 1000))
    rw [hm]
  · intro h1 h2 h3
    have hn : ts.timestamp_nanos = ts.timestamp_millis * 1000000 := by
      unfold Timestamp.timestamp_nanos wrapI64 Timestamp.timestamp_millis
        Timestamp.timestamp_subsec_millis Timestamp.timestamp_subsec_nanos
        Timestamp.timestamp
      omega
    show Except.ok (Value.integer ts.timestamp_nanos) =
      Except.ok (Value.integer (ts.timestamp_millis * 1000000))
    rw [hn]

/-- Witness for C8 (amended) at the in-range instant 1970-01-01T00:00:01Z. -/
theorem C8_unit_scaling_witness :
    (timestampNode { nanos := 1000000000 } Unit.Milliseconds).resolve
        defaultContext =
      Except.ok (Value.integer
        (Timestamp.timestamp { nanos := 1000000000 } * 1000)) ∧
    (timestampNode { nanos := 1000000000 } Unit.Nanoseconds).resolve
        defaultContext =
      Except.ok (Value.integer
        (Timestamp.timestamp_millis { nanos := 1000000000 } * 1000000)) :=
  ⟨(C8_unit_scaling { nanos := 1000000000 } defaultContext).2.1 (by decide),
   (C8_unit_scaling { nanos := 1000000000 } defaultContext).2.2
     (by decide) (by decide) (by decide)⟩

/-- Claim C9: every string the enum-constrained extraction of the unit
argument can yield parses successfully under `Unit.from_str` (the failure
branch guarded by the constraint is unreachable), and consequently compile
never reaches the validated-enum panic while constructing a node. -/
theorem C9_validated_enum_unreachable :
    (∀ args s,
      ArgumentList.optional_enum args "unit" Unit.all_str =
        Except.ok (some s) →
      ∃ u, Unit.from_str s = Except.ok u) ∧
    (∀ args, ToUnixTimestamp.compile args ≠
      Except.error (CompileError.panicked "validated enum")) := by
  constructor
  · intro args s h
    unfold ArgumentList.optional_enum at h
    rcases hl : List.lookup "unit" args with _ | a
    · rw [hl] at h
      simp at h
    · rw [hl] at h
      cases a with
      | expr e => simp at h
      | str t =>
        by_cases ht : t ∈ Unit.all_str
        · simp only [ht, if_true, Except.ok.injEq, Option.some.injEq] at h
          exact h ▸ from_str_ok_of_mem_all_str t ht
        · simp [ht] at h
  · intro args
    unfold ToUnixTimestamp.compile ArgumentList.required
      ArgumentList.optional_enum
    rcases List.lookup "value" args with _ | a
    · simp
    · rcases List.lookup "unit" args with _ | b
      · simp
      · cases b with
        | expr e => simp
        | str s =>
          by_cases hs : s ∈ Unit.all_str
          · obtain ⟨u, hu⟩ := from_str_ok_of_mem_all_str s hs
            simp [hs, hu]
          · simp [hs]

/-- Witness for C9 at a concrete argument list whose unit is
"milliseconds". -/
theorem C9_validated_enum_unreachable_witness :
    ∃ u, Unit.from_str "milliseconds" = Except.ok u :=
  C9_validated_enum_unreachable.1
    [("value", Argument.str "x"), ("unit", Argument.str "milliseconds")]
    "milliseconds" rfl

/-- Claim C10: the unit string set round-trips and is closed: parsing the
canonical string of each variant returns that variant; the canonical set is
exactly seconds, milliseconds, nanoseconds; parsing succeeds exactly on
members of that set; and every other string yields the "unit not
recognized" error. -/
theorem C10_unit_roundtrip_closed :
    (∀ u : Unit, Unit.from_str u.as_str = Except.ok u) ∧
    Unit.all_str = ["seconds", "milliseconds", "nanoseconds"] ∧
    (∀ s, (∃ u, Unit.from_str s = Except.ok u) ↔ s ∈ Unit.all_str) ∧
    (∀ s, s ∉ Unit.all_str →
      Unit.from_str s = Except.error "unit not recognized") := by
  have hnot : ∀ s, s ∉ Unit.all_str →
      Unit.from_str s = Except.error "unit not recognized" := by
    intro s hs
    rw [unit_all_str_eval] at hs
    simp only [List.mem_cons, List.not_mem_nil, or_false, not_or] at hs
    obtain ⟨h1, h2, h3⟩ := hs
    simp [Unit.from_str, h1, h2, h3]
  refine ⟨?_, unit_all_str_eval, ?_, hnot⟩
  · intro u
    cases u <;> rfl
  · intro s
    constructor
    · rintro ⟨u, hu⟩
      by_contra hs
      rw [hnot s hs] at hu
      cases hu
    · exact from_str_ok_of_mem_all_str s

/-- Witness for C10: the string "hours" is outside the set and is rejected
with the "unit not recognized" error. -/
theorem C10_unit_roundtrip_closed_witness :
    Unit.from_str "hours" = Except.error "unit not recognized" :=
  C10_unit_roundtrip_closed.2.2.2 "hours" (by decide)

end VRL
